import Mathlib

/-!
Shallow embedding of the NIH-DISHA `python_backend` metric modules
(adequacy_calculation.py, productivity_calculation.py, equity.py,
cropping_intensity.py, irrigation_utilization.py).

Numbers are modelled as rationals.  Python's `round(x, n)` (and the
numpy/pandas `.round`) rounds half to even; `pyround` reproduces that
convention on exact rationals.  The pandas sample standard deviation used by
the equity module involves a square root, which has no exact rational value;
the equity computation is therefore parametrized by that one primitive
(`std : List ℚ → ℚ`), and no theorem below depends on its values.
-/

/-- Round half to even for the tie case: the even one of `n`, `n + 1`. -/
def pyroundTie (n : Int) : Int := if n % 2 = 0 then n else n + 1

/-- Python/numpy rounding of a rational to an integer (half to even). -/
def pyround (x : ℚ) : Int :=
  if x - ⌊x⌋ = 1/2 then pyroundTie ⌊x⌋ else round x

/-- Python `round(x, n)`: round to `n` decimal digits. -/
def roundTo (n : Nat) (x : ℚ) : ℚ := (pyround (x * 10 ^ n) : ℚ) / 10 ^ n

/-- pandas `Series.mean` on a list of rationals (callers guard emptiness). -/
def qmean (l : List ℚ) : ℚ := l.sum / (l.length : ℚ)

/-- pandas `.str.upper()` on a cell. -/
def upperStr (s : String) : String := String.mk (s.data.map Char.toUpper)

/-- `Series.unique().tolist()`: distinct values in first-seen order. -/
def uniqueFirstSeen {α : Type} [DecidableEq α] (l : List α) : List α :=
  l.foldl (fun acc a => if a ∈ acc then acc else acc ++ [a]) []

/-- Insertion step for ascending sort of integers. -/
def insertSorted (x : Int) : List Int → List Int
  | [] => [x]
  | a :: t => if x ≤ a then x :: a :: t else a :: insertSorted x t

/-- `sorted(...)` on integers (years). -/
def sortInts (l : List Int) : List Int := l.foldr insertSorted []

/-- Insertion step for ascending sort of strings. -/
def insertSortedStr (x : String) : List String → List String
  | [] => [x]
  | a :: t => if x < a then x :: a :: t else a :: insertSortedStr x t

/-- `sorted(...)` on strings (crop types). -/
def sortStrings (l : List String) : List String := l.foldr insertSortedStr []

/-- One CSV record.  Metric modules ignore the fields they do not use. -/
structure Row where
  year : Int
  season : Int
  cropType : String
  cropId : Int
  area : ℚ
  status : String
  eta : ℚ
  eta90 : ℚ
  tbp : ℚ
deriving Repr, DecidableEq

/-- A parsed CSV: the column names present, plus the rows.  Column-presence
checks inspect `header`, mirroring the `col in df.columns` checks. -/
structure Csv where
  header : List String
  rows : List Row
deriving Repr, DecidableEq

/-! ### Adequacy module (adequacy_calculation.py) -/

/-- Crop types excluded from every adequacy season (`EXCLUDE_CROPS`). -/
def EXCLUDE_CROPS : List String := ["Other Unirrigated"]

/-- Seasons computed by the adequacy and equity modules (`SEASONS`). -/
def SEASONS : List Int := [0, 1, 2, 3]

/-- `df_season`: rows of the selected season, excluded crops dropped. -/
def seasonRows (rows : List Row) (s : Int) : List Row :=
  rows.filter fun r => decide (r.season = s ∧ ¬ r.cropType ∈ EXCLUDE_CROPS)

/-- The `status == "IRRIGATED"` subset of `df_season` (STEP 1 grouping). -/
def adequacyIrr (rows : List Row) (s : Int) : List Row :=
  (seasonRows rows s).filter fun r => decide (r.status = "IRRIGATED")

/-- The unrounded irrigated-area sum of the (year, crop) group (the
`groupby(['year','Crop Type'])['Area'].sum()` value, 0 when absent). -/
def adequacyAreaRaw (rows : List Row) (s y : Int) (c : String) : ℚ :=
  (((adequacyIrr rows s).filter fun r => decide (r.year = y ∧ r.cropType = c)).map (·.area)).sum

/-- The area-matrix entry: the group sum after `.round(0).astype(int)`. -/
def adequacyAreaInt (rows : List Row) (s y : Int) (c : String) : Int :=
  pyround (adequacyAreaRaw rows s y c)

/-- Years of the season's area matrix (`area_df.index`, ascending). -/
def adequacyYears (rows : List Row) (s : Int) : List Int :=
  sortInts (uniqueFirstSeen ((adequacyIrr rows s).map (·.year)))

/-- Crop columns of the season's matrices: `crop_types` (first-seen order in
`df_season`) restricted to crops present in the irrigated grouping. -/
def adequacyCrops (rows : List Row) (s : Int) : List String :=
  (uniqueFirstSeen ((seasonRows rows s).map (·.cropType))).filter
    fun c => (adequacyIrr rows s).any fun r => decide (r.cropType = c)

/-- The row subset used by `compute_adequacy` for one (year, crop). -/
def adequacySubset (rows : List Row) (s y : Int) (c : String) : List Row :=
  (seasonRows rows s).filter fun r =>
    decide (r.year = y ∧ r.cropType = c ∧ r.status = "IRRIGATED")

/-- `compute_adequacy(year, crop)`: `None` becomes `none`. -/
def compute_adequacy (rows : List Row) (s y : Int) (c : String) : Option ℚ :=
  if adequacyAreaInt rows s y c ≤ 0 then none
  else
    let subset := adequacySubset rows s y c
    if subset.isEmpty then none
    else
      let avg_eta := qmean (subset.map (·.eta))
      let avg_eta90 := qmean (subset.map (·.eta90))
      if avg_eta90 = 0 then none else some (roundTo 2 (1 - avg_eta / avg_eta90))

/-- The crops of a year whose adequacy cell is numeric (`valid.index`). -/
def adequacyValidCrops (rows : List Row) (s y : Int) : List String :=
  (adequacyCrops rows s).filter fun c => (compute_adequacy rows s y c).isSome

/-- STEP 3: combined adequacy of a year, the rounded area-weighted mean of the
valid cells, weights the integer area-matrix entries; `None` if no valid cell. -/
def combined_adequacy (rows : List Row) (s y : Int) : Option ℚ :=
  let valid := adequacyValidCrops rows s y
  if valid.isEmpty then none
  else
    let num := (valid.map fun c =>
      (compute_adequacy rows s y c).getD 0 * (adequacyAreaInt rows s y c : ℚ)).sum
    let den := (valid.map fun c => (adequacyAreaInt rows s y c : ℚ)).sum
    some (roundTo 2 (num / den))

/-- The order in which `SEASON_LABELS` assigns the summary columns
(Kharif, Rabi, Zaid, Annual). -/
def SEASON_LABEL_ORDER : List Int := [1, 2, 3, 0]

/-- Row index of the final summary dataframe.  pandas fixes the index of the
empty `summary_df` at the first column assignment, so it is the year list of
the first present season in label order; the later seasons' columns are
aligned to it, and their years outside it are silently dropped. -/
def adequacySummaryIndex (rows : List Row) : List Int :=
  match SEASON_LABEL_ORDER.filter fun s => decide (¬ (seasonRows rows s).isEmpty = true) with
  | [] => []
  | s :: _ => adequacyYears rows s

/-- A season's cell of a summary row: `NaN` (from an absent season, a year
outside the aligned summary index or the season's own index, or a `None`
combined score) becomes `none`. -/
def adequacySummaryEntry (rows : List Row) (s y : Int) : Option ℚ :=
  if (seasonRows rows s).isEmpty then none
  else if y ∈ adequacySummaryIndex rows ∧ y ∈ adequacyYears rows s then
    combined_adequacy rows s y
  else none

/-- The non-`NaN` entries of a season's summary column: the aligned index's
years that the season covers and whose combined score is numeric. -/
def adequacyColumnValids (rows : List Row) (s : Int) : List ℚ :=
  (adequacySummaryIndex rows).filterMap fun y =>
    if y ∈ adequacyYears rows s then combined_adequacy rows s y else none

/-- A season's entry of the `average` block: `summary_df.mean().round(2)`
re-rounded by `round(float(...), 2)`, and 0 for an absent or all-`NaN` column. -/
def adequacyAverage (rows : List Row) (s : Int) : ℚ :=
  if (seasonRows rows s).isEmpty then 0
  else
    let valids := adequacyColumnValids rows s
    if valids.isEmpty then 0 else roundTo 2 (roundTo 2 (qmean valids))

/-- One row of the adequacy `summary` list. -/
structure AdequacySummaryRow where
  year : Int
  kharif : Option ℚ
  rabi : Option ℚ
  zaid : Option ℚ
  annual : Option ℚ
deriving Repr, DecidableEq

/-- The value returned by `compute_adequacy_from_csv`. -/
structure AdequacyResult where
  summary : List AdequacySummaryRow
  avgKharif : ℚ
  avgRabi : ℚ
  avgZaid : ℚ
  avgAnnual : ℚ
deriving Repr, DecidableEq

/-- Required columns of the adequacy module. -/
def adequacyRequiredCols : List String :=
  ["year", "Season", "Crop Type", "Area", "ETa", "ETa90", "status"]

/-- The first required column missing from the header, if any (the loop
`for col in required_cols: if col not in df.columns: raise`). -/
def firstMissing (header required : List String) : Option String :=
  required.find? fun c => decide (¬ c ∈ header)

/-- `compute_adequacy_from_csv`: schema check, then the assembled result. -/
def compute_adequacy_from_csv (csv : Csv) : Except String AdequacyResult :=
  match firstMissing csv.header adequacyRequiredCols with
  | some c => .error ("Missing required column: " ++ c)
  | none => .ok
      { summary := (adequacySummaryIndex csv.rows).map fun y =>
          { year := y
            kharif := adequacySummaryEntry csv.rows 1 y
            rabi := adequacySummaryEntry csv.rows 2 y
            zaid := adequacySummaryEntry csv.rows 3 y
            annual := adequacySummaryEntry csv.rows 0 y }
        avgKharif := adequacyAverage csv.rows 1
        avgRabi := adequacyAverage csv.rows 2
        avgZaid := adequacyAverage csv.rows 3
        avgAnnual := adequacyAverage csv.rows 0 }

/-! ### Productivity module (productivity_calculation.py) -/

/-- The per-row `productivity` column added by `parse_productivity_csv`:
`TBP / (ETa * 10)` when `ETa > 0`, else 0. -/
def productivityOfRow (r : Row) : ℚ :=
  if 0 < r.eta then r.tbp / (r.eta * 10) else 0

/-- `base`: rows of the season with exactly-matching `IRRIGATED` status. -/
def prodBase (rows : List Row) (s : Int) : List Row :=
  rows.filter fun r => decide (r.season = s ∧ r.status = "IRRIGATED")

/-- `filtered_avg`: the `Area > 0` subset of `base`. -/
def prodFilteredAvg (rows : List Row) (s : Int) : List Row :=
  (prodBase rows s).filter fun r => decide (0 < r.area)

/-- `years = sorted(base['year'].unique())` of the season tables. -/
def prodSeasonYears (rows : List Row) (s : Int) : List Int :=
  sortInts (uniqueFirstSeen ((prodBase rows s).map (·.year)))

/-- `crops = sorted(base['Crop Type'].unique())` of the season tables. -/
def prodCrops (rows : List Row) (s : Int) : List String :=
  sortStrings (uniqueFirstSeen ((prodBase rows s).map (·.cropType)))

/-- A (year, crop) cell of the productivity table: mean of the per-row
productivity over the year-and-crop records of `filtered_avg`. -/
def prodCell (rows : List Row) (s y : Int) (c : String) : Option ℚ :=
  let crop_records := (prodFilteredAvg rows s).filter fun r =>
    decide (r.year = y ∧ r.cropType = c)
  if crop_records.isEmpty then none
  else some (roundTo 2 (qmean (crop_records.map productivityOfRow)))

/-- `weighted_productivity[year]`: the area-weighted mean of the per-row
productivity over the year's `filtered_avg` records, rounded to 2 digits;
`None` when the area total is not positive. -/
def weighted_productivity (rows : List Row) (s y : Int) : Option ℚ :=
  let year_records := (prodFilteredAvg rows s).filter fun r => decide (r.year = y)
  let total_area := (year_records.map (·.area)).sum
  if 0 < total_area then
    some (roundTo 2 ((year_records.map fun r => r.area * productivityOfRow r).sum / total_area))
  else none

/-- A year row of the productivity table as a key-indexed map: the dict holds
the per-crop cells plus the `Average` key, which is set last and holds the
year's weighted productivity. -/
def prodTableEntry (rows : List Row) (s y : Int) (key : String) : Option (Option ℚ) :=
  if key = "Average" then some (weighted_productivity rows s y)
  else if key ∈ prodCrops rows s then some (prodCell rows s y key)
  else none

/-- `average_weighted_productivity`: arithmetic mean over years of the
non-`None` weighted values, rounded to 2 digits; `None` if none exist. -/
def average_weighted_productivity (rows : List Row) (s : Int) : Option ℚ :=
  let vals := (prodSeasonYears rows s).filterMap fun y => weighted_productivity rows s y
  if vals.isEmpty then none else some (roundTo 2 (qmean vals))

/-- One row of the productivity `summary` list (season 4 is the annual bucket). -/
structure ProdSummaryRow where
  year : Int
  kharif : Option ℚ
  rabi : Option ℚ
  zaid : Option ℚ
  annual : Option ℚ
deriving Repr, DecidableEq

/-- The value returned by `compute_productivity_from_csv`.  An `average` entry
is `some 0` when the whole season has no rows, and the season's
`average_weighted_productivity` otherwise. -/
structure ProductivityResult where
  summary : List ProdSummaryRow
  avgKharif : Option ℚ
  avgRabi : Option ℚ
  avgZaid : Option ℚ
  avgAnnual : Option ℚ
deriving Repr, DecidableEq

/-- Required columns of the productivity module. -/
def productivityRequiredCols : List String :=
  ["year", "Season", "Crop Type", "Area", "ETa", "TBP", "status"]

/-- Union of the four seasons' year lists, ascending. -/
def prodUnionYears (rows : List Row) : List Int :=
  sortInts (uniqueFirstSeen (([1, 2, 3, 4].map fun s => prodSeasonYears rows s).flatten))

/-- A season's `average` block entry of the productivity result. -/
def prodAverageEntry (rows : List Row) (s : Int) : Option ℚ :=
  if (prodBase rows s).isEmpty then some 0 else average_weighted_productivity rows s

/-- `compute_productivity_from_csv`: schema check, then the assembled result
(seasons 1, 2, 3 and 4; season 4 is the full-year/annual bucket). -/
def compute_productivity_from_csv (csv : Csv) : Except String ProductivityResult :=
  match firstMissing csv.header productivityRequiredCols with
  | some c => .error ("Missing required column: " ++ c)
  | none => .ok
      { summary := (prodUnionYears csv.rows).map fun y =>
          { year := y
            kharif := weighted_productivity csv.rows 1 y
            rabi := weighted_productivity csv.rows 2 y
            zaid := weighted_productivity csv.rows 3 y
            annual := weighted_productivity csv.rows 4 y }
        avgKharif := prodAverageEntry csv.rows 1
        avgRabi := prodAverageEntry csv.rows 2
        avgZaid := prodAverageEntry csv.rows 3
        avgAnnual := prodAverageEntry csv.rows 4 }

/-! ### Equity module (equity.py) -/

/-- Required columns of the equity module. -/
def equityRequiredCols : List String := ["year", "Season", "status", "ETa"]

/-- `has_crop_id = 'CropID' in df.columns`. -/
def hasCropId (csv : Csv) : Prop := "CropID" ∈ csv.header

instance (csv : Csv) : Decidable (hasCropId csv) := by
  unfold hasCropId; infer_instance

/-- The crop id actually used: the caller's if given, else the first one in
the data when the `CropID` column exists. -/
def effectiveCropId (csv : Csv) (cropId? : Option Int) : Option Int :=
  match cropId? with
  | some c => some c
  | none =>
      if hasCropId csv then (uniqueFirstSeen (csv.rows.map (·.cropId))).head?
      else none

/-- The row subset of one (year, season) equity cell.  Season 0 (annual) never
filters by crop id; other seasons filter by the effective crop id when the
`CropID` column exists.  Status matching is case-insensitive (`str.upper()`). -/
def equitySubset (csv : Csv) (cropId? : Option Int) (y s : Int) : List Row :=
  if s = 0 then
    csv.rows.filter fun r =>
      decide (r.year = y ∧ upperStr r.status = "IRRIGATED" ∧ r.season = 0)
  else
    match (if hasCropId csv then effectiveCropId csv cropId? else none) with
    | some cid =>
        csv.rows.filter fun r =>
          decide (r.cropId = cid ∧ r.year = y ∧ upperStr r.status = "IRRIGATED" ∧ r.season = s)
    | none =>
        csv.rows.filter fun r =>
          decide (r.year = y ∧ upperStr r.status = "IRRIGATED" ∧ r.season = s)

/-- One equity cell: the rounded coefficient of variation `std/mean` of the
subset's ETa, `None` with fewer than 2 rows or a non-positive mean.  The
sample standard deviation is the abstracted primitive `std`. -/
def equityCell (std : List ℚ → ℚ) (csv : Csv) (cropId? : Option Int) (y s : Int) : Option ℚ :=
  let subset := equitySubset csv cropId? y s
  if ¬ subset.isEmpty ∧ 1 < subset.length then
    let mean_eta := qmean (subset.map (·.eta))
    if 0 < mean_eta then some (roundTo 3 (std (subset.map (·.eta)) / mean_eta)) else none
  else none

/-- `calc_avg`: mean of the non-`None` values rounded to 3 digits, 0 if none. -/
def calc_avg (values : List (Option ℚ)) : ℚ :=
  let valid := values.filterMap id
  if valid.isEmpty then 0 else roundTo 3 (qmean valid)

/-- One row of the equity `summary` list. -/
structure EquityRow where
  year : Int
  kharif : Option ℚ
  rabi : Option ℚ
  zaid : Option ℚ
  annual : Option ℚ

/-- The value returned by `compute_equity_from_csv`. -/
structure EquityResult where
  summary : List EquityRow
  avgKharif : ℚ
  avgRabi : ℚ
  avgZaid : ℚ
  avgAnnual : ℚ

/-- `years = sorted(df['year'].unique())` over the whole record set. -/
def allYears (rows : List Row) : List Int :=
  sortInts (uniqueFirstSeen (rows.map (·.year)))

/-- `compute_equity_from_csv`: schema check, then per-year rows for seasons
1, 2, 3, 0 and the `calc_avg` column averages. -/
def compute_equity_from_csv (std : List ℚ → ℚ) (csv : Csv) (cropId? : Option Int) :
    Except String EquityResult :=
  match firstMissing csv.header equityRequiredCols with
  | some c => .error ("Missing required column: " ++ c)
  | none => .ok
      { summary := (allYears csv.rows).map fun y =>
          { year := y
            kharif := equityCell std csv cropId? y 1
            rabi := equityCell std csv cropId? y 2
            zaid := equityCell std csv cropId? y 3
            annual := equityCell std csv cropId? y 0 }
        avgKharif := calc_avg ((allYears csv.rows).map fun y => equityCell std csv cropId? y 1)
        avgRabi := calc_avg ((allYears csv.rows).map fun y => equityCell std csv cropId? y 2)
        avgZaid := calc_avg ((allYears csv.rows).map fun y => equityCell std csv cropId? y 3)
        avgAnnual := calc_avg ((allYears csv.rows).map fun y => equityCell std csv cropId? y 0) }

/-! ### Cropping intensity module (cropping_intensity.py) -/

/-- The fixed crop-category ids 1–8. -/
def cropIds : List Int := [1, 2, 3, 4, 5, 6, 7, 8]

/-- `crop_data['Area'].sum()` of one (year, category): the crop filter runs on
`year_data`, the year's rows. -/
def ciAreaSum (rows : List Row) (y cid : Int) : ℚ :=
  (((rows.filter fun r => decide (r.year = y)).filter fun r =>
    decide (r.cropId = cid)).map (·.area)).sum

/-- Table 1, `Cropped Area by ID`: the per-category area sums rounded to
integers, as year-indexed rows of (category, value) cells. -/
def ciCroppedAreaData (rows : List Row) : List (Int × List (Int × ℚ)) :=
  (allYears rows).map fun y =>
    (y, cropIds.map fun cid => (cid, (pyround (ciAreaSum rows y cid) : ℚ)))

/-- Table 2, `Cropped Area (normalized)`: the unrounded per-category sums
divided by the reference area and rounded to 3 digits; 0 when `cca ≤ 0`. -/
def ciNormalizedAreaData (rows : List Row) (cca : ℚ) : List (Int × List (Int × ℚ)) :=
  (allYears rows).map fun y =>
    (y, cropIds.map fun cid =>
      (cid, if 0 < cca then roundTo 3 (ciAreaSum rows y cid / cca) else 0))

/-- Cell lookup in one of the two area tables. -/
def ciLookupCell (data : List (Int × List (Int × ℚ))) (y cid : Int) : Option ℚ :=
  (data.find? fun p => p.1 == y).bind fun p => (p.2.find? fun q => q.1 == cid).map (·.2)

/-- `total_cropped_area` of a year before rounding: sum over all of the
year's rows, whatever their crop id. -/
def ciYearTotal (rows : List Row) (y : Int) : ℚ :=
  ((rows.filter fun r => decide (r.year = y)).map (·.area)).sum

/-- One row of Table 3, `Based on CCA`. -/
structure CIIntensityEntry where
  year : Int
  croppingIntensity : ℚ
  totalCroppedArea : ℚ
deriving Repr, DecidableEq

/-- Table 3: the intensity is the unrounded year total over `cca` rounded to
2 digits (0 when `cca ≤ 0`); the stored total is the rounded year total. -/
def ciIntensityData (rows : List Row) (cca : ℚ) : List CIIntensityEntry :=
  (allYears rows).map fun y =>
    { year := y
      croppingIntensity := if 0 < cca then roundTo 2 (ciYearTotal rows y / cca) else 0
      totalCroppedArea := (pyround (ciYearTotal rows y) : ℚ) }

/-- Lookup of a year's Table 3 entry. -/
def ciIntensityLookup (rows : List Row) (cca : ℚ) (y : Int) : Option CIIntensityEntry :=
  (ciIntensityData rows cca).find? fun e => e.year == y

/-- The value returned by `compute_cropping_intensity_from_csv` (the appended
AVERAGE pseudo-rows are presentation and are not re-stated here). -/
structure CIResult where
  croppedArea : List (Int × List (Int × ℚ))
  normalizedArea : List (Int × List (Int × ℚ))
  intensity : List CIIntensityEntry
  cca : ℚ
deriving Repr, DecidableEq

/-- Always-required columns of the cropping-intensity module; `CropID` is
checked separately with its own message. -/
def ciRequiredCols : List String := ["year", "Area"]

/-- `compute_cropping_intensity_from_csv`: the `year`/`Area` check, then the
dedicated `CropID` check, then the three tables. -/
def compute_cropping_intensity_from_csv (csv : Csv) (cca : ℚ) : Except String CIResult :=
  match firstMissing csv.header ciRequiredCols with
  | some c => .error ("Missing required column: " ++ c)
  | none =>
      if "CropID" ∈ csv.header then
        .ok { croppedArea := ciCroppedAreaData csv.rows
              normalizedArea := ciNormalizedAreaData csv.rows cca
              intensity := ciIntensityData csv.rows cca
              cca := cca }
      else .error "CropID column is required for cropping intensity calculation"

/-! ### Irrigation utilization module (irrigation_utilization.py) -/

/-- Required columns of the irrigation-utilization module. -/
def utilRequiredCols : List String := ["year", "Area", "status"]

/-- The year's irrigated-area sum: rows whose uppercased status is
`IRRIGATED`, with no season or crop filtering. -/
def utilIrrigatedSum (rows : List Row) (y : Int) : ℚ :=
  ((rows.filter fun r => decide (r.year = y ∧ upperStr r.status = "IRRIGATED")).map (·.area)).sum

/-- One entry of the utilization result list. -/
structure UtilEntry where
  year : Int
  irrigatedArea : ℚ
  utilization : ℚ
deriving Repr, DecidableEq

/-- The per-year utilization entries: the stored area is the sum rounded to 2
digits; the ratio is the unrounded sum over `cca` rounded to 4 digits, forced
to 0 when `cca ≤ 0`. -/
def utilData (rows : List Row) (cca : ℚ) : List UtilEntry :=
  (allYears rows).map fun y =>
    { year := y
      irrigatedArea := roundTo 2 (utilIrrigatedSum rows y)
      utilization := if 0 < cca then roundTo 4 (utilIrrigatedSum rows y / cca) else 0 }

/-- Lookup of a year's utilization entry. -/
def utilLookup (rows : List Row) (cca : ℚ) (y : Int) : Option UtilEntry :=
  (utilData rows cca).find? fun e => e.year == y

/-- The value returned by `compute_irrigation_utilization_from_csv`. -/
structure UtilResult where
  data : List UtilEntry
  cca : ℚ
deriving Repr, DecidableEq

/-- `compute_irrigation_utilization_from_csv`: schema check, then the data. -/
def compute_irrigation_utilization_from_csv (csv : Csv) (cca : ℚ) :
    Except String UtilResult :=
  match firstMissing csv.header utilRequiredCols with
  | some c => .error ("Missing required column: " ++ c)
  | none => .ok { data := utilData csv.rows cca, cca := cca }

/-! ### Concrete record sets used to instantiate the theorems -/

/-- Adequacy fixture (the spec's 2-year, 2-crop scenario): year 2002's crop A
has zero area, so B is the sole valid cell there. -/
def fxAdequacy : List Row :=
  [⟨2001, 1, "A", 0, 1, "IRRIGATED", 9, 10, 0⟩,
   ⟨2001, 1, "B", 0, 2, "IRRIGATED", 8, 10, 0⟩,
   ⟨2002, 1, "A", 0, 0, "IRRIGATED", 5, 10, 0⟩,
   ⟨2002, 1, "B", 0, 5, "IRRIGATED", 5, 10, 0⟩]

/-- One irrigated row with `1 - eta/eta90 = 2/3`, a value that 2-digit rounding moves. -/
def fxCell : List Row := [⟨2020, 1, "A", 0, 5, "IRRIGATED", 1, 3, 0⟩]

/-- Two seasons with disjoint year sets: the Kharif year list fixes the
summary index, so the Rabi column holds no aligned value at all. -/
def fxAlign : List Row :=
  [⟨2001, 1, "A", 0, 1, "IRRIGATED", 9, 10, 0⟩,
   ⟨2002, 2, "A", 0, 1, "IRRIGATED", 5, 10, 0⟩]

/-- One irrigated row whose area sum `3/10` is positive but rounds to 0. -/
def fxSmallArea : List Row := [⟨2020, 1, "A", 0, 3/10, "IRRIGATED", 9, 10, 0⟩]

/-- Productivity fixture (the spec's 3-row, 2-crop scenario): the per-row
productivity values are 1, 2 and 4. -/
def fxProd : List Row :=
  [⟨2020, 1, "A", 0, 1, "IRRIGATED", 1, 0, 10⟩,
   ⟨2020, 1, "A", 0, 2, "IRRIGATED", 1, 0, 20⟩,
   ⟨2020, 1, "B", 0, 1, "IRRIGATED", 1, 0, 40⟩]

/-- One row whose per-row productivity is `1/3`, which 2-digit rounding moves. -/
def fxProdThird : List Row := [⟨2020, 1, "A", 0, 1, "IRRIGATED", 3, 0, 10⟩]

/-- Cropping-intensity fixture with a fractional area sum `10.4`. -/
def fxCI : List Row := [⟨2020, 1, "", 1, 52/5, "X", 0, 0, 0⟩]

/-- Two categories of area `0.4` each: cells round to 0, the total rounds to 1. -/
def fxCI2 : List Row :=
  [⟨2020, 1, "", 1, 2/5, "X", 0, 0, 0⟩, ⟨2020, 1, "", 2, 2/5, "X", 0, 0, 0⟩]

/-- The spec's end-to-end scenario: total area 1200 against reference 1000. -/
def fxCI3 : List Row := [⟨2020, 1, "", 5, 1200, "IRRIGATED", 0, 0, 0⟩]

/-- A row with the out-of-range crop id 9: no category cell counts it, but the
year total does. -/
def fxCI4 : List Row := [⟨2020, 1, "", 9, 7, "X", 0, 0, 0⟩]

/-- One irrigated row of area 1. -/
def fxUtil : List Row := [⟨2020, 0, "", 0, 1, "IRRIGATED", 0, 0, 0⟩]

/-- A row whose status matches `IRRIGATED` only up to letter case. -/
def fxCase : Row := ⟨2020, 0, "Wheat", 1, 5, "Irrigated", 1, 1, 1⟩

/-- The same case-variant status on a kharif-season row. -/
def fxCase2 : Row := ⟨2020, 1, "Wheat", 1, 5, "Irrigated", 1, 1, 1⟩

/-! ### Helper lemmas -/

theorem pyround_intCast (n : ℤ) : pyround (n : ℚ) = n := by
  unfold pyround
  rw [Int.floor_intCast, sub_self]
  norm_num [round_intCast]

theorem roundTo_idem (n : Nat) (x : ℚ) : roundTo n (roundTo n x) = roundTo n x := by
  unfold roundTo
  rw [div_mul_cancel₀ _ (pow_ne_zero n (by norm_num : (10:ℚ) ≠ 0)), pyround_intCast]

theorem pyround_zero_of_lt_half {x : ℚ} (h0 : 0 ≤ x) (h : x < 1/2) : pyround x = 0 := by
  have hf : ⌊x⌋ = 0 := Int.floor_eq_zero_iff.mpr ⟨h0, by linarith⟩
  unfold pyround
  rw [hf, Int.cast_zero, sub_zero]
  rw [if_neg (by exact ne_of_lt h)]
  rw [round_eq]
  exact Int.floor_eq_zero_iff.mpr ⟨by linarith, by linarith⟩

theorem compute_adequacy_isSome_area {rows : List Row} {s y : Int} {c : String}
    (h : (compute_adequacy rows s y c).isSome) : 0 < adequacyAreaInt rows s y c := by
  by_contra hle
  push_neg at hle
  simp [compute_adequacy, hle] at h

theorem compute_adequacy_some_shape {rows : List Row} {s y : Int} {c : String} {v : ℚ}
    (h : compute_adequacy rows s y c = some v) : ∃ t, v = roundTo 2 t := by
  simp only [compute_adequacy] at h
  split_ifs at h with h1 h2 h3
  exact ⟨_, (Option.some.inj h).symm⟩

theorem sum_filter_ite {α : Type} (p : α → Bool) (f : α → ℚ) (l : List α) :
    ((l.filter p).map f).sum = (l.map fun a => if p a then f a else 0).sum := by
  induction l with
  | nil => rfl
  | cons a t ih =>
      by_cases hp : p a
      · simp [List.filter_cons, hp, ih]
      · simp [List.filter_cons, hp, ih]

theorem opt_ite_elim (o : Option ℚ) (f : ℚ → ℚ) :
    (if o.isSome then f (o.getD 0) else 0) = o.elim 0 f := by
  cases o <;> rfl

theorem sum_map_add {α : Type} (g h : α → ℚ) (l : List α) :
    (l.map fun a => g a + h a).sum = (l.map g).sum + (l.map h).sum := by
  induction l with
  | nil => simp
  | cons a t ih => simp [ih]; ring

theorem sum_ite_zero {k : Int} (ids : List Int) (h : ¬ k ∈ ids) (v : ℚ) :
    (ids.map fun i => if k = i then v else 0).sum = 0 := by
  induction ids with
  | nil => rfl
  | cons a t ih =>
      simp only [List.mem_cons, not_or] at h
      simp [h.1, ih h.2]

theorem sum_ite_single {k : Int} (ids : List Int) (hnd : ids.Nodup) (h : k ∈ ids) (v : ℚ) :
    (ids.map fun i => if k = i then v else 0).sum = v := by
  induction ids with
  | nil => cases h
  | cons a t ih =>
      rcases List.mem_cons.mp h with rfl | hmem
      · have : ¬ k ∈ t := (List.nodup_cons.mp hnd).1
        simp [sum_ite_zero t this v]
      · have hka : k ≠ a := by
          rintro rfl
          exact (List.nodup_cons.mp hnd).1 hmem
        simp [hka, ih (List.nodup_cons.mp hnd).2 hmem]

theorem sum_filter_partition (ids : List Int) (hnd : ids.Nodup) (l : List Row)
    (hall : ∀ r ∈ l, r.cropId ∈ ids) :
    (ids.map fun i => ((l.filter fun r => decide (r.cropId = i)).map (·.area)).sum).sum =
      (l.map (·.area)).sum := by
  induction l with
  | nil => simp
  | cons r t ih =>
      have hr : r.cropId ∈ ids := hall r (List.mem_cons_self r t)
      have ht : ∀ x ∈ t, x.cropId ∈ ids := fun x hx => hall x (List.mem_cons_of_mem r hx)
      have step : ∀ i : Int,
          ((((r :: t).filter fun x => decide (x.cropId = i)).map (·.area)).sum) =
            (if r.cropId = i then r.area else 0) +
              (((t.filter fun x => decide (x.cropId = i)).map (·.area)).sum) := by
        intro i
        by_cases hi : r.cropId = i
        · simp [List.filter_cons, hi]
        · simp [List.filter_cons, hi]
      calc (ids.map fun i => (((r :: t).filter fun x => decide (x.cropId = i)).map (·.area)).sum).sum
          = (ids.map fun i => (if r.cropId = i then r.area else 0) +
              ((t.filter fun x => decide (x.cropId = i)).map (·.area)).sum).sum := by
            exact congrArg List.sum (List.map_congr_left fun i _ => step i)
        _ = (ids.map fun i => if r.cropId = i then r.area else 0).sum +
              (ids.map fun i => ((t.filter fun x => decide (x.cropId = i)).map (·.area)).sum).sum :=
            sum_map_add _ _ ids
        _ = r.area + (t.map (·.area)).sum := by
            rw [sum_ite_single ids hnd hr, ih ht]
        _ = ((r :: t).map (·.area)).sum := by simp

theorem one_le_sum {l : List ℚ} (hne : l ≠ []) (h : ∀ x ∈ l, 1 ≤ x) : 1 ≤ l.sum := by
  cases l with
  | nil => exact absurd rfl hne
  | cons a t =>
      have ha : 1 ≤ a := h a (List.mem_cons_self a t)
      have ht : 0 ≤ t.sum :=
        List.sum_nonneg fun x hx => le_trans zero_le_one (h x (List.mem_cons_of_mem a hx))
      simpa using add_le_add ha ht

theorem find?_map_key {β : Type} (key : β → Int) (f : Int → β) (hk : ∀ z, key (f z) = z)
    (ys : List Int) (y : Int) (h : y ∈ ys) :
    (ys.map f).find? (fun e => key e == y) = some (f y) := by
  induction ys with
  | nil => cases h
  | cons a t ih =>
      by_cases hay : a = y
      · subst hay
        rw [List.map_cons]
        exact List.find?_cons_of_pos _ (by simp [hk])
      · rw [List.map_cons, List.find?_cons_of_neg _ (by simp [hk, hay])]
        have hyt : y ∈ t := by
          rcases List.mem_cons.mp h with h1 | h2
          · exact absurd h1.symm hay
          · exact h2
        exact ih hyt

theorem firstMissing_none_iff (header required : List String) :
    firstMissing header required = none ↔ ∀ c ∈ required, c ∈ header := by
  simp [firstMissing, List.find?_eq_none]

theorem firstMissing_some_spec {header required : List String} {c : String}
    (h : firstMissing header required = some c) : c ∈ required ∧ ¬ c ∈ header := by
  refine ⟨List.mem_of_find?_eq_some h, ?_⟩
  have := List.find?_some h
  simpa using this

/-! ### Claim theorems -/

/-- C10: in the adequacy module the per-(year, crop) irrigated-area sums are
rounded to the nearest integer before any use, so a (year, crop) whose true
irrigated-area sum lies strictly between 0 and 1/2 gets a "no value" cell even
though its raw area is positive, and any year with at least one valid cell has
a combined-score weight total of at least 1 (the weights being those integer
area-matrix entries), so the weighted division is well defined. -/
theorem C10_rounded_area_weights :
    (∀ (rows : List Row) (s y : Int) (c : String),
       0 < adequacyAreaRaw rows s y c → adequacyAreaRaw rows s y c < 1/2 →
       compute_adequacy rows s y c = none) ∧
    (∀ (rows : List Row) (s y : Int), adequacyValidCrops rows s y ≠ [] →
       1 ≤ ((adequacyValidCrops rows s y).map fun c => (adequacyAreaInt rows s y c : ℚ)).sum) := by
  constructor
  · intro rows s y c h1 h2
    have h0 : adequacyAreaInt rows s y c = 0 := by
      unfold adequacyAreaInt
      exact pyround_zero_of_lt_half h1.le h2
    simp [compute_adequacy, h0]
  · intro rows s y hne
    apply one_le_sum
    · simpa using hne
    · intro x hx
      obtain ⟨c, hc, rfl⟩ := List.mem_map.mp hx
      have hs : (compute_adequacy rows s y c).isSome := by
        have h' : c ∈ adequacyCrops rows s ∧ (compute_adequacy rows s y c).isSome = true := by
          simpa [adequacyValidCrops, List.mem_filter] using hc
        exact h'.2
      have := compute_adequacy_isSome_area hs
      exact_mod_cast this

/-- C10 witness: a lone irrigated row of area 3/10 produces a blank adequacy
cell, and the sample year 2001 of the adequacy fixture has weight total ≥ 1. -/
theorem C10_witness :
    compute_adequacy fxSmallArea 1 2020 "A" = none ∧
    1 ≤ ((adequacyValidCrops fxAdequacy 1 2001).map fun c =>
      (adequacyAreaInt fxAdequacy 1 2001 c : ℚ)).sum := by
  constructor
  · have hir : ((adequacyIrr fxSmallArea 1).filter fun r =>
        decide (r.year = 2020 ∧ r.cropType = "A")) = fxSmallArea := by
      simp [adequacyIrr, seasonRows, fxSmallArea, List.filter_cons, EXCLUDE_CROPS]
    apply C10_rounded_area_weights.1 fxSmallArea 1 2020 "A"
    · rw [adequacyAreaRaw, hir]
      norm_num [fxSmallArea]
    · rw [adequacyAreaRaw, hir]
      norm_num [fxSmallArea]
  · apply C10_rounded_area_weights.2 fxAdequacy 1 2001
    have hA : compute_adequacy fxAdequacy 1 2001 "A" = some (1/10) := by
      have hs : adequacySubset fxAdequacy 1 2001 "A" =
          [⟨2001, 1, "A", 0, 1, "IRRIGATED", 9, 10, 0⟩] := by decide
      have hir : ((adequacyIrr fxAdequacy 1).filter fun r =>
          decide (r.year = 2001 ∧ r.cropType = "A")) =
          [⟨2001, 1, "A", 0, 1, "IRRIGATED", 9, 10, 0⟩] := by decide
      simp only [compute_adequacy, adequacyAreaInt, adequacyAreaRaw, hir, hs]
      norm_num [qmean, roundTo, pyround, pyroundTie, round_eq]
    have hcrops : adequacyCrops fxAdequacy 1 = ["A", "B"] := by decide
    simp only [adequacyValidCrops, hcrops]
    simp [List.filter_cons, hA]

/-- C3 counterexample: with one irrigated row of `eta = 1`, `eta90 = 3`, the
cell holds `0.67`, not the exact `1 - 1/3 = 2/3` the claim asserts. -/
theorem C3_counterexample :
    compute_adequacy fxCell 1 2020 "A" = some (67/100) ∧ (67/100 : ℚ) ≠ 1 - 1/3 := by
  constructor
  · have hs : adequacySubset fxCell 1 2020 "A" = fxCell := by decide
    have hir : ((adequacyIrr fxCell 1).filter fun r =>
        decide (r.year = 2020 ∧ r.cropType = "A")) = fxCell := by decide
    simp only [compute_adequacy, adequacyAreaInt, adequacyAreaRaw, hir, hs]
    norm_num [fxCell, qmean, roundTo, pyround, pyroundTie, round_eq]
  · norm_num

/-- C3 (amended): an adequacy cell is "no value" exactly when the matching
irrigated subset is empty, the rounded irrigated-area entry is ≤ 0, or the
subset's mean `eta90` is 0; otherwise the cell holds
`1 - mean(eta)/mean(eta90)` rounded to 2 decimal digits. -/
theorem C3_cell_no_value_iff : ∀ (rows : List Row) (s y : Int) (c : String),
    (compute_adequacy rows s y c = none ↔
      (adequacySubset rows s y c = [] ∨ adequacyAreaInt rows s y c ≤ 0 ∨
        qmean ((adequacySubset rows s y c).map (·.eta90)) = 0)) ∧
    (adequacySubset rows s y c ≠ [] → ¬ adequacyAreaInt rows s y c ≤ 0 →
      qmean ((adequacySubset rows s y c).map (·.eta90)) ≠ 0 →
      compute_adequacy rows s y c =
        some (roundTo 2 (1 - qmean ((adequacySubset rows s y c).map (·.eta)) /
          qmean ((adequacySubset rows s y c).map (·.eta90))))) := by
  intro rows s y c
  constructor
  · simp only [compute_adequacy]
    split_ifs with h1 h2 h3
    · simp [h1]
    · simp [List.isEmpty_iff.mp h2]
    · simp [h3]
    · have hne : adequacySubset rows s y c ≠ [] := by
        intro hnil
        exact h2 (by simp [hnil])
      simp [h1, h3, hne]
  · intro hne h1 h3
    simp only [compute_adequacy]
    rw [if_neg h1, if_neg (by simpa [List.isEmpty_iff] using hne), if_neg h3]

/-- C2 counterexample: year 2001 of the fixture has cells `0.1` (weight 1) and
`0.2` (weight 2); the stored combined score is `0.17`, not the exact weighted
mean `1/6` the claim asserts. -/
theorem C2_counterexample :
    combined_adequacy fxAdequacy 1 2001 = some (17/100) ∧
    (17/100 : ℚ) ≠ ((1/10) * 1 + (1/5) * 2) / (1 + 2) := by
  have hirA : ((adequacyIrr fxAdequacy 1).filter fun r =>
      decide (r.year = 2001 ∧ r.cropType = "A")) =
      [⟨2001, 1, "A", 0, 1, "IRRIGATED", 9, 10, 0⟩] := by decide
  have hirB : ((adequacyIrr fxAdequacy 1).filter fun r =>
      decide (r.year = 2001 ∧ r.cropType = "B")) =
      [⟨2001, 1, "B", 0, 2, "IRRIGATED", 8, 10, 0⟩] := by decide
  have hsA : adequacySubset fxAdequacy 1 2001 "A" =
      [⟨2001, 1, "A", 0, 1, "IRRIGATED", 9, 10, 0⟩] := by decide
  have hsB : adequacySubset fxAdequacy 1 2001 "B" =
      [⟨2001, 1, "B", 0, 2, "IRRIGATED", 8, 10, 0⟩] := by decide
  have hwA : adequacyAreaInt fxAdequacy 1 2001 "A" = 1 := by
    rw [adequacyAreaInt, adequacyAreaRaw, hirA]
    norm_num [pyround, pyroundTie, round_eq]
  have hwB : adequacyAreaInt fxAdequacy 1 2001 "B" = 2 := by
    rw [adequacyAreaInt, adequacyAreaRaw, hirB]
    norm_num [pyround, pyroundTie, round_eq]
  have hA : compute_adequacy fxAdequacy 1 2001 "A" = some (1/10) := by
    simp only [compute_adequacy, hwA, hsA]
    norm_num [qmean, roundTo, pyround, pyroundTie, round_eq]
  have hB : compute_adequacy fxAdequacy 1 2001 "B" = some (1/5) := by
    simp only [compute_adequacy, hwB, hsB]
    norm_num [qmean, roundTo, pyround, pyroundTie, round_eq]
  have hcrops : adequacyCrops fxAdequacy 1 = ["A", "B"] := by decide
  have hvalid : adequacyValidCrops fxAdequacy 1 2001 = ["A", "B"] := by
    simp only [adequacyValidCrops, hcrops]
    simp [List.filter_cons, hA, hB]
  constructor
  · simp only [combined_adequacy, hvalid]
    simp only [List.map_cons, List.map_nil, hA, hB, hwA, hwB]
    norm_num [roundTo, pyround, pyroundTie, round_eq]
  · norm_num

/-- C2 (amended): the combined adequacy score of a year is the area-weighted
mean of the year's non-"no value" cells rounded to 2 decimal digits, the
weights being the integer-rounded irrigated-area matrix entries; it is
"no value" when the year has no valid cell, and it equals the cell value
exactly when exactly one cell is valid. -/
theorem C2_combined_score : ∀ (rows : List Row) (s y : Int),
    (adequacyValidCrops rows s y = [] → combined_adequacy rows s y = none) ∧
    (adequacyValidCrops rows s y ≠ [] →
      combined_adequacy rows s y = some (roundTo 2
        ((((adequacyCrops rows s).map fun c =>
            (compute_adequacy rows s y c).elim 0 fun v =>
              v * (adequacyAreaInt rows s y c : ℚ)).sum) /
         (((adequacyCrops rows s).map fun c =>
            (compute_adequacy rows s y c).elim 0 fun _ =>
              (adequacyAreaInt rows s y c : ℚ)).sum)))) ∧
    (∀ c : String, adequacyValidCrops rows s y = [c] →
      combined_adequacy rows s y = compute_adequacy rows s y c) := by
  intro rows s y
  refine ⟨?_, ?_, ?_⟩
  · intro h
    simp [combined_adequacy, h]
  · intro h
    have hnum : ((adequacyValidCrops rows s y).map fun c =>
        (compute_adequacy rows s y c).getD 0 * (adequacyAreaInt rows s y c : ℚ)).sum =
        ((adequacyCrops rows s).map fun c =>
          (compute_adequacy rows s y c).elim 0 fun v =>
            v * (adequacyAreaInt rows s y c : ℚ)).sum := by
      unfold adequacyValidCrops
      rw [sum_filter_ite]
      exact congrArg List.sum (List.map_congr_left fun c _ =>
        opt_ite_elim (compute_adequacy rows s y c) fun v => v * (adequacyAreaInt rows s y c : ℚ))
    have hden : ((adequacyValidCrops rows s y).map fun c =>
        (adequacyAreaInt rows s y c : ℚ)).sum =
        ((adequacyCrops rows s).map fun c =>
          (compute_adequacy rows s y c).elim 0 fun _ =>
            (adequacyAreaInt rows s y c : ℚ)).sum := by
      unfold adequacyValidCrops
      rw [sum_filter_ite]
      refine congrArg List.sum (List.map_congr_left fun c _ => ?_)
      cases hoc : compute_adequacy rows s y c <;> simp [hoc]
    simp only [combined_adequacy]
    rw [if_neg (by simpa [List.isEmpty_iff] using h), hnum, hden]
  · intro c hc
    have hcmem : c ∈ adequacyValidCrops rows s y := by
      rw [hc]; exact List.mem_singleton.mpr rfl
    have hcSome : (compute_adequacy rows s y c).isSome := by
      have h' : c ∈ adequacyCrops rows s ∧ (compute_adequacy rows s y c).isSome = true := by
        simpa [adequacyValidCrops, List.mem_filter] using hcmem
      exact h'.2
    obtain ⟨v, hv⟩ := Option.isSome_iff_exists.mp hcSome
    have hwpos : (0:ℚ) < (adequacyAreaInt rows s y c : ℚ) := by
      exact_mod_cast compute_adequacy_isSome_area hcSome
    simp only [combined_adequacy, hc, List.map_cons, List.map_nil, hv]
    simp only [List.isEmpty_cons, if_false, Bool.false_eq_true, List.sum_cons, List.sum_nil,
      Option.getD_some, add_zero]
    rw [mul_div_cancel_right₀ v (ne_of_gt hwpos)]
    obtain ⟨t, rfl⟩ := compute_adequacy_some_shape hv
    rw [roundTo_idem]

/-- The year-and-season records of `filtered_avg` are one filter of the raw
record set: season match, exact `IRRIGATED` status, positive area, year match. -/
theorem prod_year_records_eq (rows : List Row) (s y : Int) :
    (prodFilteredAvg rows s).filter (fun r => decide (r.year = y)) =
    rows.filter fun r =>
      decide (r.season = s ∧ r.status = "IRRIGATED" ∧ 0 < r.area ∧ r.year = y) := by
  unfold prodFilteredAvg prodBase
  rw [List.filter_filter, List.filter_filter]
  apply List.filter_congr
  intro r _
  simp only [← Bool.decide_and]
  exact decide_eq_decide.mpr (by tauto)

/-- C1 counterexample: a single row with `area = 1`, `tbp = 10`, `eta = 3` has
per-row productivity `1/3`; the stored weighted productivity is `0.33`, not
the exact quotient `(1 × 1/3) / 1` the claim asserts. -/
theorem C1_counterexample :
    weighted_productivity fxProdThird 1 2020 = some (33/100) ∧
    (33/100 : ℚ) ≠ (1 * (1/3)) / 1 := by
  constructor
  · have hyr : (prodFilteredAvg fxProdThird 1).filter (fun r => decide (r.year = 2020)) =
        fxProdThird := by decide
    simp only [weighted_productivity, hyr]
    norm_num [fxProdThird, productivityOfRow, roundTo, pyround, pyroundTie, round_eq]
  · norm_num

/-- C1 (amended): for a year with positive filtered area total, the stored
per-year weighted productivity equals `Σ(areaᵢ × productivityᵢ) / Σ(areaᵢ)`
over the year's rows with positive area — `productivityᵢ` being
`tbpᵢ / (etaᵢ × 10)` when `etaᵢ > 0` and 0 otherwise — rounded to 2 decimal
digits, and that value is stored in the `Average` column of the year's
productivity table. -/
theorem C1_weighted_productivity : ∀ (rows : List Row) (s y : Int),
    0 < ((rows.filter fun r =>
        decide (r.season = s ∧ r.status = "IRRIGATED" ∧ 0 < r.area ∧ r.year = y)).map
          (·.area)).sum →
    weighted_productivity rows s y = some (roundTo 2
      (((rows.filter fun r =>
          decide (r.season = s ∧ r.status = "IRRIGATED" ∧ 0 < r.area ∧ r.year = y)).map fun r =>
            r.area * (if 0 < r.eta then r.tbp / (r.eta * 10) else 0)).sum /
       ((rows.filter fun r =>
          decide (r.season = s ∧ r.status = "IRRIGATED" ∧ 0 < r.area ∧ r.year = y)).map
            (·.area)).sum)) ∧
    prodTableEntry rows s y "Average" = some (weighted_productivity rows s y) := by
  intro rows s y h
  constructor
  · simp only [weighted_productivity, prod_year_records_eq, productivityOfRow]
    rw [if_pos h]
  · simp [prodTableEntry]

/-- C1 witness: on the 3-row, 2-crop fixture the weighted productivity is
`(1×1 + 2×2 + 1×4) / 4 = 2.25`, also stored in the `Average` column. -/
theorem C1_witness :
    weighted_productivity fxProd 1 2020 = some (9/4) ∧
    prodTableEntry fxProd 1 2020 "Average" = some (weighted_productivity fxProd 1 2020) := by
  have hfil : (fxProd.filter fun r =>
      decide (r.season = 1 ∧ r.status = "IRRIGATED" ∧ 0 < r.area ∧ r.year = 2020)) =
      fxProd := by decide
  have hpos : 0 < ((fxProd.filter fun r =>
      decide (r.season = 1 ∧ r.status = "IRRIGATED" ∧ 0 < r.area ∧ r.year = 2020)).map
        (·.area)).sum := by
    rw [hfil]
    norm_num [fxProd]
  obtain ⟨h1, h2⟩ := C1_weighted_productivity fxProd 1 2020 hpos
  refine ⟨?_, h2⟩
  rw [h1, hfil]
  norm_num [fxProd, roundTo, pyround, pyroundTie, round_eq]

/-- C2 witness: in year 2002 of the fixture only crop B is valid (crop A has
zero area), and the combined score equals B's cell value `0.5` unweighted. -/
theorem C2_witness : combined_adequacy fxAdequacy 1 2002 = some (1/2) := by
  have hirA : ((adequacyIrr fxAdequacy 1).filter fun r =>
      decide (r.year = 2002 ∧ r.cropType = "A")) =
      [⟨2002, 1, "A", 0, 0, "IRRIGATED", 5, 10, 0⟩] := by decide
  have hirB : ((adequacyIrr fxAdequacy 1).filter fun r =>
      decide (r.year = 2002 ∧ r.cropType = "B")) =
      [⟨2002, 1, "B", 0, 5, "IRRIGATED", 5, 10, 0⟩] := by decide
  have hsB : adequacySubset fxAdequacy 1 2002 "B" =
      [⟨2002, 1, "B", 0, 5, "IRRIGATED", 5, 10, 0⟩] := by decide
  have hwA : adequacyAreaInt fxAdequacy 1 2002 "A" = 0 := by
    rw [adequacyAreaInt, adequacyAreaRaw, hirA]
    norm_num [pyround, pyroundTie, round_eq]
  have hwB : adequacyAreaInt fxAdequacy 1 2002 "B" = 5 := by
    rw [adequacyAreaInt, adequacyAreaRaw, hirB]
    norm_num [pyround, pyroundTie, round_eq]
  have hA : compute_adequacy fxAdequacy 1 2002 "A" = none := by
    simp [compute_adequacy, hwA]
  have hB : compute_adequacy fxAdequacy 1 2002 "B" = some (1/2) := by
    simp only [compute_adequacy, hwB, hsB]
    norm_num [qmean, roundTo, pyround, pyroundTie, round_eq]
  have hcrops : adequacyCrops fxAdequacy 1 = ["A", "B"] := by decide
  have hvalid : adequacyValidCrops fxAdequacy 1 2002 = ["B"] := by
    simp only [adequacyValidCrops, hcrops]
    simp [List.filter_cons, hA, hB]
  rw [(C2_combined_score fxAdequacy 1 2002).2.2 "B" hvalid, hB]

/-- C4 counterexample: the stored `calc_avg` of the entries `0.1, 0.2, 0.2` is
`0.167`, not their exact arithmetic mean `1/6` the claim asserts. -/
theorem C4_counterexample :
    calc_avg [some (1/10 : ℚ), some (1/5), some (1/5)] = 167/1000 ∧
    (167/1000 : ℚ) ≠ (1/10 + 1/5 + 1/5) / 3 := by
  constructor
  · norm_num [calc_avg, List.filterMap_cons, qmean, roundTo, pyround, pyroundTie, round_eq]
  · norm_num

/-- C4 (amended): a season column of the summary's average row is the
arithmetic mean of the column's non-"no value" per-year entries rounded to the
module's output precision (2 digits for adequacy, 3 for equity); an
all-"no value" (or absent) column averages to the number 0; and cell-level
insufficiency is propagated as "no value" — excluded from the average, never
coerced to 0 at the cell level. -/
theorem C4_average_row :
    (∀ (rows : List Row) (s : Int),
       (adequacyColumnValids rows s = [] → adequacyAverage rows s = 0) ∧
       (adequacyColumnValids rows s ≠ [] →
          adequacyAverage rows s = roundTo 2 (qmean (adequacyColumnValids rows s)))) ∧
    (∀ vals : List (Option ℚ), calc_avg (none :: vals) = calc_avg vals) ∧
    (∀ l : List ℚ, l ≠ [] → calc_avg (l.map some) = roundTo 3 (qmean l)) ∧
    (∀ n : Nat, calc_avg (List.replicate n none) = 0) ∧
    (∀ (rows : List Row) (s y : Int), combined_adequacy rows s y = none →
       adequacySummaryEntry rows s y = none) := by
  refine ⟨?_, ?_, ?_, ?_, ?_⟩
  · intro rows s
    constructor
    · intro h
      simp [adequacyAverage, h]
    · intro h
      have hse : ¬ (seasonRows rows s).isEmpty = true := by
        intro hse
        apply h
        have hnil := List.isEmpty_iff.mp hse
        have hyrs : adequacyYears rows s = [] := by
          unfold adequacyYears adequacyIrr
          rw [hnil]
          rfl
        unfold adequacyColumnValids
        rw [hyrs]
        simp
      simp only [adequacyAverage]
      rw [if_neg hse, if_neg (by simpa [List.isEmpty_iff] using h)]
      exact roundTo_idem 2 _
  · intro vals
    simp [calc_avg, List.filterMap_cons]
  · intro l hl
    simp only [calc_avg, List.filterMap_map, Function.comp_def, Option.some.injEq]
    have hid : l.filterMap some = l := List.filterMap_some l
    rw [show (List.filterMap (fun a => id (some a)) l) = l from by simp [hid]]
    rw [if_neg (by simpa [List.isEmpty_iff] using hl)]
  · intro n
    induction n with
    | zero => rfl
    | succ k ih =>
        simp [List.replicate_succ, calc_avg, List.filterMap_cons]
  · intro rows s y h
    unfold adequacySummaryEntry
    split_ifs <;> simp [h]

/-- C4 witness: the empty record set's adequacy column averages to 0; with
Kharif present only in 2001 and Rabi only in 2002, the aligned Rabi column is
all-`NaN` and averages to 0; and on the concrete entry list `0.1, 0.2` the
equity average is `round3(0.15)`. -/
theorem C4_witness :
    adequacyAverage ([] : List Row) 1 = 0 ∧
    adequacyAverage fxAlign 2 = 0 ∧
    calc_avg ([(1:ℚ)/10, 1/5].map some) = 3/20 := by
  refine ⟨?_, ?_, ?_⟩
  · exact (C4_average_row.1 [] 1).1 rfl
  · exact (C4_average_row.1 fxAlign 2).1 (by decide)
  · rw [C4_average_row.2.2.1 [(1:ℚ)/10, 1/5] (by simp)]
    norm_num [qmean, roundTo, pyround, pyroundTie, round_eq]

/-- C5 counterexample: one crop-1 row of area `10.4` with reference area 2
stores a normalized cell `5.2` but a raw cell `10`; the claim's equality would
need `5.2 = 10 / 2`. -/
theorem C5_counterexample :
    ciLookupCell (ciNormalizedAreaData fxCI 2) 2020 1 = some (26/5) ∧
    ciLookupCell (ciCroppedAreaData fxCI) 2020 1 = some 10 ∧
    (26/5 : ℚ) ≠ 10 / 2 := by
  have hsum : ciAreaSum fxCI 2020 1 = 52/5 := by
    simp [ciAreaSum, fxCI, List.filter_cons]
  refine ⟨?_, ?_, by norm_num⟩
  · have h1 : (ciNormalizedAreaData fxCI 2).find? (fun p => p.1 == 2020) =
        some (2020, cropIds.map fun cid =>
          (cid, if 0 < (2:ℚ) then roundTo 3 (ciAreaSum fxCI 2020 cid / 2) else 0)) := by
      unfold ciNormalizedAreaData
      exact find?_map_key _ _ (fun z => rfl) _ 2020 (by decide)
    have h2 : ((cropIds.map fun cid =>
        (cid, if 0 < (2:ℚ) then roundTo 3 (ciAreaSum fxCI 2020 cid / 2) else 0)).find?
          (fun q => q.1 == 1)) =
        some (1, if 0 < (2:ℚ) then roundTo 3 (ciAreaSum fxCI 2020 1 / 2) else 0) :=
      find?_map_key _ _ (fun z => rfl) cropIds 1 (by decide)
    unfold ciLookupCell
    rw [h1]
    simp only [Option.some_bind, h2, Option.map_some']
    rw [hsum]
    norm_num [roundTo, pyround, pyroundTie, round_eq]
  · have h1 : (ciCroppedAreaData fxCI).find? (fun p => p.1 == 2020) =
        some (2020, cropIds.map fun cid => (cid, (pyround (ciAreaSum fxCI 2020 cid) : ℚ))) := by
      unfold ciCroppedAreaData
      exact find?_map_key _ _ (fun z => rfl) _ 2020 (by decide)
    have h2 : ((cropIds.map fun cid =>
        (cid, (pyround (ciAreaSum fxCI 2020 cid) : ℚ))).find? (fun q => q.1 == 1)) =
        some (1, (pyround (ciAreaSum fxCI 2020 1) : ℚ)) :=
      find?_map_key _ _ (fun z => rfl) cropIds 1 (by decide)
    unfold ciLookupCell
    rw [h1]
    simp only [Option.some_bind, h2, Option.map_some']
    rw [hsum]
    norm_num [pyround, pyroundTie, round_eq]

/-- C5 (amended): a normalized-area cell is the unrounded (year, category)
area sum divided by the reference area and rounded to 3 decimal digits, while
the raw-area cell is that same sum rounded to the nearest integer — the
normalized cell is therefore derived from the unrounded sum, not from the
displayed raw cell. -/
theorem C5_normalized_table : ∀ (rows : List Row) (cca : ℚ) (y cid : Int),
    0 < cca → y ∈ allYears rows → cid ∈ cropIds →
    ciLookupCell (ciNormalizedAreaData rows cca) y cid =
      some (roundTo 3 (ciAreaSum rows y cid / cca)) ∧
    ciLookupCell (ciCroppedAreaData rows) y cid =
      some ((pyround (ciAreaSum rows y cid) : ℚ)) := by
  intro rows cca y cid hcca hy hcid
  constructor
  · have h1 : (ciNormalizedAreaData rows cca).find? (fun p => p.1 == y) =
        some (y, cropIds.map fun cid' =>
          (cid', if 0 < cca then roundTo 3 (ciAreaSum rows y cid' / cca) else 0)) := by
      unfold ciNormalizedAreaData
      exact find?_map_key _ _ (fun z => rfl) _ y hy
    have h2 : ((cropIds.map fun cid' =>
        (cid', if 0 < cca then roundTo 3 (ciAreaSum rows y cid' / cca) else 0)).find?
          (fun q => q.1 == cid)) =
        some (cid, if 0 < cca then roundTo 3 (ciAreaSum rows y cid / cca) else 0) :=
      find?_map_key _ _ (fun z => rfl) cropIds cid hcid
    unfold ciLookupCell
    rw [h1]
    simp only [Option.some_bind]
    rw [h2]
    simp only [Option.map_some', if_pos hcca]
  · have h1 : (ciCroppedAreaData rows).find? (fun p => p.1 == y) =
        some (y, cropIds.map fun cid' => (cid', (pyround (ciAreaSum rows y cid') : ℚ))) := by
      unfold ciCroppedAreaData
      exact find?_map_key _ _ (fun z => rfl) _ y hy
    have h2 : ((cropIds.map fun cid' =>
        (cid', (pyround (ciAreaSum rows y cid') : ℚ))).find? (fun q => q.1 == cid)) =
        some (cid, (pyround (ciAreaSum rows y cid) : ℚ)) :=
      find?_map_key _ _ (fun z => rfl) cropIds cid hcid
    unfold ciLookupCell
    rw [h1]
    simp only [Option.some_bind, h2, Option.map_some']

/-- C5 witness: for the fixture with crop-5 area 1200 and reference 1000 the
normalized cell is `1.2` and the raw cell `1200`. -/
theorem C5_witness :
    ciLookupCell (ciNormalizedAreaData fxCI3 1000) 2020 5 = some (6/5) ∧
    ciLookupCell (ciCroppedAreaData fxCI3) 2020 5 = some 1200 := by
  have hsum : ciAreaSum fxCI3 2020 5 = 1200 := by
    simp [ciAreaSum, fxCI3, List.filter_cons]
  obtain ⟨h1, h2⟩ := C5_normalized_table fxCI3 1000 2020 5 (by norm_num) (by decide) (by decide)
  constructor
  · rw [h1, hsum]
    norm_num [roundTo, pyround, pyroundTie, round_eq]
  · rw [h2, hsum]
    norm_num [pyround, pyroundTie, round_eq]

/-- C6 counterexample: two rows of area `0.4` in categories 1 and 2 store a
year total of 1 while the stored raw cells sum to 0, and the stored intensity
ratio `0.8` (reference area 1) differs from stored-total/reference `= 1`. -/
theorem C6_counterexample :
    (ciIntensityLookup fxCI2 1 2020).map (fun e => e.totalCroppedArea) = some 1 ∧
    ((ciCroppedAreaData fxCI2).find? (fun p => p.1 == 2020)).map
      (fun p => (p.2.map (·.2)).sum) = some 0 ∧
    (1 : ℚ) ≠ 0 ∧
    (ciIntensityLookup fxCI2 1 2020).map (fun e => e.croppingIntensity) = some (4/5) ∧
    (4/5 : ℚ) ≠ 1 / 1 := by
  have ht : ciYearTotal fxCI2 2020 = 4/5 := by
    simp [ciYearTotal, fxCI2, List.filter_cons]
    norm_num
  have hl : ciIntensityLookup fxCI2 1 2020 = some
      { year := 2020
        croppingIntensity := if 0 < (1:ℚ) then roundTo 2 (ciYearTotal fxCI2 2020 / 1) else 0
        totalCroppedArea := (pyround (ciYearTotal fxCI2 2020) : ℚ) } := by
    unfold ciIntensityLookup ciIntensityData
    exact find?_map_key _ _ (fun z => rfl) _ 2020 (by decide)
  have hc : (ciCroppedAreaData fxCI2).find? (fun p => p.1 == 2020) =
      some (2020, cropIds.map fun cid => (cid, (pyround (ciAreaSum fxCI2 2020 cid) : ℚ))) := by
    unfold ciCroppedAreaData
    exact find?_map_key _ _ (fun z => rfl) _ 2020 (by decide)
  refine ⟨?_, ?_, by norm_num, ?_, by norm_num⟩
  · rw [hl]
    simp only [Option.map_some']
    rw [ht]
    norm_num [pyround, pyroundTie, round_eq]
  · rw [hc]
    simp only [Option.map_some', Option.some.injEq, List.map_map]
    simp only [cropIds, List.map_cons, List.map_nil, Function.comp_def]
    have e1 : ciAreaSum fxCI2 2020 1 = 2/5 := by
      simp [ciAreaSum, fxCI2, List.filter_cons]
    have e2 : ciAreaSum fxCI2 2020 2 = 2/5 := by
      simp [ciAreaSum, fxCI2, List.filter_cons]
    have e0 : ∀ cid : Int, cid ≠ 1 → cid ≠ 2 → ciAreaSum fxCI2 2020 cid = 0 := by
      intro cid hc1 hc2
      simp [ciAreaSum, fxCI2, List.filter_cons, hc1.symm, hc2.symm]
    rw [e1, e2, e0 3 (by norm_num) (by norm_num), e0 4 (by norm_num) (by norm_num),
      e0 5 (by norm_num) (by norm_num), e0 6 (by norm_num) (by norm_num),
      e0 7 (by norm_num) (by norm_num), e0 8 (by norm_num) (by norm_num)]
    norm_num [pyround, pyroundTie, round_eq]
  · rw [hl]
    simp only [Option.map_some']
    rw [ht]
    norm_num [roundTo, pyround, pyroundTie, round_eq]

/-- C6 (amended): for every record set, reference area and year present in the
data, the year's stored total cropped area is the integer-rounded sum of all of
the year's row areas (whatever their crop ids), and the stored intensity ratio
is the unrounded total divided by the reference area rounded to 2 decimal
digits when the reference area is positive, and 0 otherwise; when additionally
every row of the year carries a crop id in 1–8, the unrounded total equals the
sum of the 8 unrounded per-category sums. -/
theorem C6_intensity_total : ∀ (rows : List Row) (cca : ℚ) (y : Int),
    y ∈ allYears rows →
    ciIntensityLookup rows cca y = some
      { year := y
        croppingIntensity := if 0 < cca then roundTo 2 (ciYearTotal rows y / cca) else 0
        totalCroppedArea := (pyround (ciYearTotal rows y) : ℚ) } ∧
    ((∀ r ∈ rows, r.year = y → r.cropId ∈ cropIds) →
      ciYearTotal rows y = (cropIds.map fun cid => ciAreaSum rows y cid).sum) := by
  intro rows cca y hy
  constructor
  · unfold ciIntensityLookup ciIntensityData
    exact find?_map_key _ _ (fun z => rfl) _ y hy
  · intro hall
    have hnd : cropIds.Nodup := by decide
    have hall' : ∀ r ∈ (rows.filter fun r => decide (r.year = y)), r.cropId ∈ cropIds := by
      intro r hr
      have hm := List.mem_filter.mp hr
      exact hall r hm.1 (by simpa using hm.2)
    have hp := sum_filter_partition cropIds hnd (rows.filter fun r => decide (r.year = y)) hall'
    unfold ciYearTotal ciAreaSum
    exact hp.symm

/-- C6 witness: the spec's end-to-end scenario — total cropped area 1200 over
reference area 1000 gives intensity ratio 1.2, and the total equals the sum of
the per-category sums; a row with the out-of-range crop id 9 is still counted
by the stored total and the ratio. -/
theorem C6_witness :
    ciIntensityLookup fxCI3 1000 2020 = some ⟨2020, 6/5, 1200⟩ ∧
    ciYearTotal fxCI3 2020 = (cropIds.map fun cid => ciAreaSum fxCI3 2020 cid).sum ∧
    ciIntensityLookup fxCI4 2 2020 = some ⟨2020, 7/2, 7⟩ := by
  have ht : ciYearTotal fxCI3 2020 = 1200 := by
    simp [ciYearTotal, fxCI3, List.filter_cons]
  obtain ⟨h1, h2⟩ := C6_intensity_total fxCI3 1000 2020 (by decide)
  refine ⟨?_, h2 (by decide), ?_⟩
  · rw [h1, ht]
    norm_num [roundTo, pyround, pyroundTie, round_eq]
  · have ht4 : ciYearTotal fxCI4 2020 = 7 := by
      simp [ciYearTotal, fxCI4, List.filter_cons]
    obtain ⟨g1, g2⟩ := C6_intensity_total fxCI4 2 2020 (by decide)
    rw [g1, ht4]
    norm_num [roundTo, pyround, pyroundTie, round_eq]

/-- C7 counterexample: one irrigated row of area 1 with reference area 3
stores `utilizationRatio = 0.3333`, not the exact `irrigatedArea / cca = 1/3`
the claim asserts. -/
theorem C7_counterexample :
    (utilLookup fxUtil 3 2020).map (fun e => e.utilization) = some (3333/10000) ∧
    (utilLookup fxUtil 3 2020).map (fun e => e.irrigatedArea) = some 1 ∧
    (3333/10000 : ℚ) ≠ 1 / 3 := by
  have h1 : utilLookup fxUtil 3 2020 = some
      { year := 2020
        irrigatedArea := roundTo 2 (utilIrrigatedSum fxUtil 2020)
        utilization := if 0 < (3:ℚ) then roundTo 4 (utilIrrigatedSum fxUtil 2020 / 3) else 0 } := by
    unfold utilLookup utilData
    exact find?_map_key _ _ (fun z => rfl) _ 2020 (by decide)
  have hs : utilIrrigatedSum fxUtil 2020 = 1 := by
    simp [utilIrrigatedSum, fxUtil, List.filter_cons,
      (show upperStr "IRRIGATED" = "IRRIGATED" by decide)]
  refine ⟨?_, ?_, by norm_num⟩
  · rw [h1]
    simp only [Option.map_some']
    rw [hs]
    norm_num [roundTo, pyround, pyroundTie, round_eq]
  · rw [h1]
    simp only [Option.map_some']
    rw [hs]
    norm_num [roundTo, pyround, pyroundTie, round_eq]

/-- C7 (amended): the utilization computation is total (with the required
columns present it returns a result, never an error); each year's entry sums
area over rows whose uppercased status is `IRRIGATED` with no season or crop
filtering, stores that sum rounded to 2 digits as `irrigatedArea`, and stores
as ratio the unrounded sum divided by the reference area rounded to 4 digits
when the reference area is positive, and exactly 0 otherwise. -/
theorem C7_utilization : (∀ (rows : List Row) (cca : ℚ) (y : Int), y ∈ allYears rows →
    utilLookup rows cca y = some
      { year := y
        irrigatedArea := roundTo 2 (((rows.filter fun r =>
            decide (r.year = y ∧ upperStr r.status = "IRRIGATED")).map (·.area)).sum)
        utilization := if 0 < cca then
            roundTo 4 (((rows.filter fun r =>
              decide (r.year = y ∧ upperStr r.status = "IRRIGATED")).map (·.area)).sum / cca)
          else 0 }) ∧
    (∀ (csv : Csv) (cca : ℚ), (∀ c ∈ utilRequiredCols, c ∈ csv.header) →
      ∃ res, compute_irrigation_utilization_from_csv csv cca = .ok res) := by
  constructor
  · intro rows cca y hy
    unfold utilLookup utilData utilIrrigatedSum
    exact find?_map_key _ _ (fun z => rfl) _ y hy
  · intro csv cca hall
    have h0 : firstMissing csv.header utilRequiredCols = none :=
      (firstMissing_none_iff _ _).mpr hall
    cases heq : compute_irrigation_utilization_from_csv csv cca with
    | error e => simp [compute_irrigation_utilization_from_csv, h0] at heq
    | ok res => exact ⟨res, rfl⟩

/-- C7 witness: with reference area 0 the fixture's ratio is exactly 0 and its
stored irrigated area is 1; with all required columns present the computation
returns a result. -/
theorem C7_witness :
    utilLookup fxUtil 0 2020 = some ⟨2020, 1, 0⟩ ∧
    (∃ res, compute_irrigation_utilization_from_csv ⟨["year", "Area", "status"], []⟩ 100 =
      .ok res) := by
  constructor
  · have h := C7_utilization.1 fxUtil 0 2020 (by decide)
    rw [h]
    have hs : ((fxUtil.filter fun r =>
        decide (r.year = 2020 ∧ upperStr r.status = "IRRIGATED")).map (·.area)).sum = 1 := by
      simp [fxUtil, List.filter_cons, (show upperStr "IRRIGATED" = "IRRIGATED" by decide)]
    rw [hs]
    norm_num [roundTo, pyround, pyroundTie, round_eq]
  · exact C7_utilization.2 ⟨["year", "Area", "status"], []⟩ 100 (by decide)

/-- C8: each module checks its required columns in order and fails with an
error naming the first missing column, producing no result; with all required
columns present the column check cannot fail and a result is returned (the
cropping-intensity module's separate `CropID` check has its own message, which
also names the column). -/
theorem C8_schema_validation :
    ∀ (csv : Csv) (cca : ℚ) (std : List ℚ → ℚ) (cropId? : Option Int),
    ((∃ c, c ∈ adequacyRequiredCols ∧ ¬ c ∈ csv.header) →
       ∃ c, c ∈ adequacyRequiredCols ∧ ¬ c ∈ csv.header ∧
         compute_adequacy_from_csv csv = .error ("Missing required column: " ++ c)) ∧
    ((∀ c ∈ adequacyRequiredCols, c ∈ csv.header) →
       ∃ res, compute_adequacy_from_csv csv = .ok res) ∧
    ((∃ c, c ∈ productivityRequiredCols ∧ ¬ c ∈ csv.header) →
       ∃ c, c ∈ productivityRequiredCols ∧ ¬ c ∈ csv.header ∧
         compute_productivity_from_csv csv = .error ("Missing required column: " ++ c)) ∧
    ((∀ c ∈ productivityRequiredCols, c ∈ csv.header) →
       ∃ res, compute_productivity_from_csv csv = .ok res) ∧
    ((∃ c, c ∈ equityRequiredCols ∧ ¬ c ∈ csv.header) →
       ∃ c, c ∈ equityRequiredCols ∧ ¬ c ∈ csv.header ∧
         compute_equity_from_csv std csv cropId? = .error ("Missing required column: " ++ c)) ∧
    ((∀ c ∈ equityRequiredCols, c ∈ csv.header) →
       ∃ res, compute_equity_from_csv std csv cropId? = .ok res) ∧
    ((∃ c, c ∈ utilRequiredCols ∧ ¬ c ∈ csv.header) →
       ∃ c, c ∈ utilRequiredCols ∧ ¬ c ∈ csv.header ∧
         compute_irrigation_utilization_from_csv csv cca =
           .error ("Missing required column: " ++ c)) ∧
    ((∀ c ∈ utilRequiredCols, c ∈ csv.header) →
       ∃ res, compute_irrigation_utilization_from_csv csv cca = .ok res) ∧
    ((∃ c, c ∈ ciRequiredCols ∧ ¬ c ∈ csv.header) →
       ∃ c, c ∈ ciRequiredCols ∧ ¬ c ∈ csv.header ∧
         compute_cropping_intensity_from_csv csv cca =
           .error ("Missing required column: " ++ c)) ∧
    ((∀ c ∈ ciRequiredCols, c ∈ csv.header) → ¬ "CropID" ∈ csv.header →
       compute_cropping_intensity_from_csv csv cca =
         .error "CropID column is required for cropping intensity calculation") ∧
    ((∀ c ∈ ciRequiredCols, c ∈ csv.header) → "CropID" ∈ csv.header →
       ∃ res, compute_cropping_intensity_from_csv csv cca = .ok res) := by
  intro csv cca std cropId?
  have errCase : ∀ (required : List String), (∃ c, c ∈ required ∧ ¬ c ∈ csv.header) →
      ∃ c, firstMissing csv.header required = some c ∧ c ∈ required ∧ ¬ c ∈ csv.header := by
    intro required h
    obtain ⟨c, hcm, hcn⟩ := h
    have hne : firstMissing csv.header required ≠ none := by
      rw [Ne, firstMissing_none_iff]
      push_neg
      exact ⟨c, hcm, hcn⟩
    obtain ⟨c', hc'⟩ := Option.ne_none_iff_exists'.mp hne
    exact ⟨c', hc', (firstMissing_some_spec hc').1, (firstMissing_some_spec hc').2⟩
  refine ⟨?_, ?_, ?_, ?_, ?_, ?_, ?_, ?_, ?_, ?_, ?_⟩
  · intro h
    obtain ⟨c, hfm, hcm, hcn⟩ := errCase adequacyRequiredCols h
    exact ⟨c, hcm, hcn, by simp [compute_adequacy_from_csv, hfm]⟩
  · intro hall
    have h0 : firstMissing csv.header adequacyRequiredCols = none :=
      (firstMissing_none_iff _ _).mpr hall
    cases heq : compute_adequacy_from_csv csv with
    | error e => simp [compute_adequacy_from_csv, h0] at heq
    | ok res => exact ⟨res, rfl⟩
  · intro h
    obtain ⟨c, hfm, hcm, hcn⟩ := errCase productivityRequiredCols h
    exact ⟨c, hcm, hcn, by simp [compute_productivity_from_csv, hfm]⟩
  · intro hall
    have h0 : firstMissing csv.header productivityRequiredCols = none :=
      (firstMissing_none_iff _ _).mpr hall
    cases heq : compute_productivity_from_csv csv with
    | error e => simp [compute_productivity_from_csv, h0] at heq
    | ok res => exact ⟨res, rfl⟩
  · intro h
    obtain ⟨c, hfm, hcm, hcn⟩ := errCase equityRequiredCols h
    exact ⟨c, hcm, hcn, by simp [compute_equity_from_csv, hfm]⟩
  · intro hall
    have h0 : firstMissing csv.header equityRequiredCols = none :=
      (firstMissing_none_iff _ _).mpr hall
    cases heq : compute_equity_from_csv std csv cropId? with
    | error e => simp [compute_equity_from_csv, h0] at heq
    | ok res => exact ⟨res, rfl⟩
  · intro h
    obtain ⟨c, hfm, hcm, hcn⟩ := errCase utilRequiredCols h
    exact ⟨c, hcm, hcn, by simp [compute_irrigation_utilization_from_csv, hfm]⟩
  · intro hall
    have h0 : firstMissing csv.header utilRequiredCols = none :=
      (firstMissing_none_iff _ _).mpr hall
    cases heq : compute_irrigation_utilization_from_csv csv cca with
    | error e => simp [compute_irrigation_utilization_from_csv, h0] at heq
    | ok res => exact ⟨res, rfl⟩
  · intro h
    obtain ⟨c, hfm, hcm, hcn⟩ := errCase ciRequiredCols h
    exact ⟨c, hcm, hcn, by simp [compute_cropping_intensity_from_csv, hfm]⟩
  · intro hall hno
    have h0 : firstMissing csv.header ciRequiredCols = none :=
      (firstMissing_none_iff _ _).mpr hall
    simp [compute_cropping_intensity_from_csv, h0, hno]
  · intro hall hyes
    have h0 : firstMissing csv.header ciRequiredCols = none :=
      (firstMissing_none_iff _ _).mpr hall
    cases heq : compute_cropping_intensity_from_csv csv cca with
    | error e => simp [compute_cropping_intensity_from_csv, h0, hyes] at heq
    | ok res => exact ⟨res, rfl⟩

/-- C8 witness: a header holding only `Season` makes the adequacy computation
fail while naming a missing column, and a complete utilization header yields a
result. -/
theorem C8_witness :
    (∃ c, c ∈ adequacyRequiredCols ∧ ¬ c ∈ (Csv.mk ["Season"] []).header ∧
      compute_adequacy_from_csv ⟨["Season"], []⟩ =
        .error ("Missing required column: " ++ c)) ∧
    (∃ res, compute_irrigation_utilization_from_csv ⟨["year", "Area", "status"], []⟩ 100 =
      .ok res) := by
  constructor
  · exact (C8_schema_validation ⟨["Season"], []⟩ 100 (fun _ => 0) none).1
      ⟨"year", by decide, by decide⟩
  · exact (C8_schema_validation ⟨["year", "Area", "status"], []⟩ 100 (fun _ => 0)
      none).2.2.2.2.2.2.2.1 (by decide)

/-- C9: a row whose status matches `IRRIGATED` only up to letter case is
counted by the equity and irrigation-utilization aggregations (which compare
`str.upper()`), and ignored by the adequacy and productivity subsets (which
compare the exact string). -/
theorem C9_case_sensitivity : ∀ (rows : List Row) (header : List String)
    (cropId? : Option Int) (r : Row) (y s t : Int) (c : String),
    r.year = y → upperStr r.status = "IRRIGATED" → r.status ≠ "IRRIGATED" →
    utilIrrigatedSum (rows ++ [r]) y = utilIrrigatedSum rows y + r.area ∧
    (r.season = 0 → equitySubset ⟨header, rows ++ [r]⟩ cropId? y 0 =
      equitySubset ⟨header, rows⟩ cropId? y 0 ++ [r]) ∧
    (¬ "CropID" ∈ header → r.season = s → s ≠ 0 →
      equitySubset ⟨header, rows ++ [r]⟩ cropId? y s =
        equitySubset ⟨header, rows⟩ cropId? y s ++ [r]) ∧
    adequacySubset (rows ++ [r]) s y c = adequacySubset rows s y c ∧
    adequacyAreaRaw (rows ++ [r]) s y c = adequacyAreaRaw rows s y c ∧
    prodBase (rows ++ [r]) t = prodBase rows t := by
  intro rows header cropId? r y s t c hy hu hne
  refine ⟨?_, ?_, ?_, ?_, ?_, ?_⟩
  · simp [utilIrrigatedSum, List.filter_append, List.filter_cons, hy, hu]
  · intro hs0
    simp [equitySubset, List.filter_append, List.filter_cons, hy, hu, hs0]
  · intro hnc hseason hsne
    simp [equitySubset, hasCropId, hnc, hsne, List.filter_append, List.filter_cons,
      hy, hu, hseason]
  · simp only [adequacySubset, seasonRows, List.filter_filter, List.filter_append]
    rw [show List.filter (fun a =>
        decide (a.year = y ∧ a.cropType = c ∧ a.status = "IRRIGATED") &&
          decide (a.season = s ∧ ¬ a.cropType ∈ EXCLUDE_CROPS)) [r] = [] from by
      simp [List.filter_cons, hne]]
    rw [List.append_nil]
  · simp only [adequacyAreaRaw, adequacyIrr, seasonRows, List.filter_filter, List.filter_append]
    rw [show List.filter (fun a =>
        decide (a.year = y ∧ a.cropType = c) &&
          (decide (a.status = "IRRIGATED") && decide (a.season = s ∧ ¬ a.cropType ∈ EXCLUDE_CROPS))) [r] = [] from by
      simp [List.filter_cons, hne]]
    rw [List.append_nil]
  · simp [prodBase, List.filter_append, List.filter_cons, hne]

/-- C9 witness: the lone row with status `Irrigated` contributes its area 5 to
the utilization sum, lands in the annual and kharif equity subsets, and is
absent from the adequacy and productivity subsets. -/
theorem C9_witness :
    utilIrrigatedSum [fxCase] 2020 = 5 ∧
    equitySubset ⟨["year"], [fxCase]⟩ none 2020 0 = [fxCase] ∧
    equitySubset ⟨["year"], [fxCase2]⟩ none 2020 1 = [fxCase2] ∧
    adequacySubset [fxCase] 0 2020 "Wheat" = [] ∧
    prodBase [fxCase] 0 = [] := by
  obtain ⟨h1, h2, h3, h4, h5, h6⟩ :=
    C9_case_sensitivity [] ["year"] none fxCase 2020 0 0 "Wheat" rfl (by decide) (by decide)
  obtain ⟨g1, g2, g3, g4, g5, g6⟩ :=
    C9_case_sensitivity [] ["year"] none fxCase2 2020 1 0 "Wheat" rfl (by decide) (by decide)
  refine ⟨?_, ?_, ?_, ?_, ?_⟩
  · simpa [utilIrrigatedSum, fxCase] using h1
  · simpa using h2 rfl
  · simpa using g3 (by decide) rfl (by decide)
  · simpa using h4
  · simpa using h6

/-- C3 witness: on the single-row record set the amended formula evaluates to
`some 0.67` with all three hypotheses discharged. -/
theorem C3_witness : compute_adequacy fxCell 1 2020 "A" = some (roundTo 2 (1 - 1/3)) := by
  have hs : adequacySubset fxCell 1 2020 "A" = fxCell := by decide
  have hir : ((adequacyIrr fxCell 1).filter fun r =>
      decide (r.year = 2020 ∧ r.cropType = "A")) = fxCell := by decide
  have h := (C3_cell_no_value_iff fxCell 1 2020 "A").2
    (by rw [hs]; simp [fxCell])
    (by
      rw [adequacyAreaInt, adequacyAreaRaw, hir]
      norm_num [fxCell, pyround, pyroundTie, round_eq])
    (by rw [hs]; norm_num [fxCell, qmean])
  rw [h, hs]
  norm_num [fxCell, qmean]
